import Mathlib

/-! Shallow embedding of the MyCastle MCP host / server / auth layer
(`src/fastapi-server/src/mcp/types.py`, `base.py`, `host.py`,
`src/fastapi-server/src/api/mcp.py`) and of the XLSX sheet-extraction
utilities (`src/python/src/server/utils/xlsx_utils.py`), together with
theorems checking the specification's claims against the embedded code.

Python strings are Lean `String`s, Python dicts are insertion-ordered
association lists, Python exceptions are a tagged error type
distinguishing `ValueError`, `PermissionError` and all other exception
classes (the granularity the embedded error handling actually inspects),
and `async` handlers are functions returning `Except` (either a value or
a raised exception). -/

/-- Python `str.split(sep)` for a single-character separator, acting on
the string's character list: splits at every occurrence of `sep` and
always returns a non-empty list of pieces. -/
def pySplitChar (sep : Char) : List Char → List (List Char)
  | [] => [[]]
  | c :: cs =>
    if c = sep then [] :: pySplitChar sep cs
    else
      match pySplitChar sep cs with
      | [] => [[c]]
      | h :: t => (c :: h) :: t

/-- Python `s.split(sep)[0]`: the piece of `s` before the first `sep`
(the whole string when `sep` does not occur; `""` when `s` is empty or
starts with `sep`). The indexing never fails because `split` returns a
non-empty list. -/
def pySplitHead (sep : Char) (s : String) : String :=
  String.mk ((pySplitChar sep s.toList).headD [])

/-- Python dict lookup `d[k]` / `d.get(k)` on an insertion-ordered
association list. -/
def dget? {K A : Type} [DecidableEq K] : List (K × A) → K → Option A
  | [], _ => none
  | (k', v) :: rest, k => if k' = k then some v else dget? rest k

/-- Python dict assignment `d[k] = v`: replaces the value in place when
the key already exists (keeping its position), otherwise appends a new
entry at the end, as Python's insertion-ordered dicts do. -/
def dinsert {K A : Type} [DecidableEq K] : List (K × A) → K → A → List (K × A)
  | [], k, v => [(k, v)]
  | (k', v') :: rest, k, v =>
    if k' = k then (k', v) :: rest else (k', v') :: dinsert rest k v

/-- Python `d.values()` in insertion order. -/
def dvalues {K A : Type} (d : List (K × A)) : List A := d.map Prod.snd

/-- Python `d.keys()` in insertion order. -/
def dkeys {K A : Type} (d : List (K × A)) : List K := d.map Prod.fst

/-- Python exceptions, at the granularity the embedded code inspects:
`ValueError`, `PermissionError`, and every other exception class
(carrying `str(e)`). -/
inductive PyExn : Type
  | valueError (msg : String)
  | permissionError (msg : String)
  | other (msg : String)
deriving DecidableEq

/-- Python `str(e)` for an exception: its message. -/
def PyExn.str : PyExn → String
  | .valueError m => m
  | .permissionError m => m
  | .other m => m

/-- `UserRole` enumeration from `mcp/types.py`. -/
inductive UserRole : Type
  | super_admin | admin | admin_dos | admin_reception
  | admin_student_operations | admin_sales | admin_marketing | admin_agent
  | teacher | teacher_dos | teacher_assistant_dos | student | guest
deriving DecidableEq

/-- `AuthContext` from `mcp/types.py`. `expires_at` (an optional
datetime, unused by any embedded operation) is modelled as an optional
timestamp. -/
structure AuthContext : Type where
  user_id : String
  tenant_id : String
  role : UserRole
  scopes : List String
  session_id : Option String := none
  expires_at : Option Nat := none
deriving DecidableEq

/-- `AuthContext.has_scope` from `mcp/types.py`:
`base_scope = scope.split(":")[0]`;
`return scope in self.scopes or f"{base_scope}:*" in self.scopes`. -/
def AuthContext.has_scope (c : AuthContext) (scope : String) : Bool :=
  let base_scope := pySplitHead ':' scope
  c.scopes.contains scope || c.scopes.contains (base_scope ++ ":*")

/-- `Tool` from `mcp/types.py`. The JSON-valued `inputSchema` field is
never inspected by any embedded operation and is omitted. -/
structure Tool : Type where
  name : String
  description : String
  scope : String
deriving DecidableEq

/-- `Resource` from `mcp/types.py`. -/
structure Resource : Type where
  uri : String
  name : String
  description : String
  mimeType : String := "application/json"
  scope : String
deriving DecidableEq

/-- `Prompt` from `mcp/types.py`. The JSON-valued `arguments` list is
never inspected by any embedded operation and is omitted. -/
structure Prompt : Type where
  name : String
  description : String
  scope : String
deriving DecidableEq

/-- The value stored in a `"text"` field of a response content item:
either a handler's result (`str(result) if not isinstance(result, dict)
else result`, kept abstract in the result type `V`), or a string built
by the server from a caught exception. -/
inductive TextVal (V : Type) : Type
  | result (v : V)
  | errText (s : String)
deriving DecidableEq

/-- One element of `ToolCallResponse.content`. -/
structure ContentItem (V : Type) : Type where
  type : String
  text : TextVal V
deriving DecidableEq

/-- `ToolCallResponse` from `mcp/types.py`. -/
structure ToolCallResponse (V : Type) : Type where
  content : List (ContentItem V)
  isError : Bool := false
deriving DecidableEq

/-- One element of `ResourceResponse.contents`. -/
structure ResourceContent (V : Type) : Type where
  uri : String
  mimeType : String
  text : TextVal V
deriving DecidableEq

/-- `ResourceResponse` from `mcp/types.py`. -/
structure ResourceResponse (V : Type) : Type where
  contents : List (ResourceContent V)
deriving DecidableEq

/-- `PromptResponse` from `mcp/types.py`; `messages` is the handler's
result, abstract in `V`. -/
structure PromptResponse (V : Type) : Type where
  description : String
  messages : V
deriving DecidableEq

/-- `CapabilitiesResponse` from `mcp/types.py`, with the `serverInfo`
string dict flattened into its three entries. -/
structure CapabilitiesResponse : Type where
  tools : List Tool
  resources : List Resource
  prompts : List Prompt
  serverInfoName : String
  serverInfoVersion : String
  serverInfoServers : List String
deriving DecidableEq

/-- `BaseMCPServer` state from `mcp/base.py`. Handlers are async
functions: a tool or prompt handler takes `(arguments, context)`, a
resource handler takes `(context)`, and each either returns a value of
the abstract result type `V` or raises an exception. `A` stands for the
JSON argument dict. -/
structure MCPServer (A V : Type) : Type where
  name : String
  version : String
  scope : String
  tools : List (String × Tool) := []
  tool_handlers : List (String × (A → AuthContext → Except PyExn V)) := []
  resources : List (String × Resource) := []
  resource_handlers : List (String × (AuthContext → Except PyExn V)) := []
  prompts : List (String × Prompt) := []
  prompt_handlers : List (String × (A → AuthContext → Except PyExn V)) := []

variable {A V : Type}

/-- `BaseMCPServer.register_tool`: qualifies the name with the server's
scope prefix when it has no `':'`, defaults the tool scope to the server
scope via Python's falsiness-based `scope or self.scope`, and records
the tool and its handler in the two registries. -/
def MCPServer.register_tool (s : MCPServer A V) (name description : String)
    (handler : A → AuthContext → Except PyExn V) (scope : Option String) :
    MCPServer A V :=
  let tool_name :=
    if name.toList.contains ':' then name
    else pySplitHead ':' s.scope ++ ":" ++ name
  let tool_scope :=
    match scope with
    | some sc => if sc = "" then s.scope else sc
    | none => s.scope
  { s with
    tools := dinsert s.tools tool_name ⟨tool_name, description, tool_scope⟩
    tool_handlers := dinsert s.tool_handlers tool_name handler }

/-- `BaseMCPServer.register_resource`. -/
def MCPServer.register_resource (s : MCPServer A V) (uri name description : String)
    (handler : AuthContext → Except PyExn V) (mime_type : String)
    (scope : Option String) : MCPServer A V :=
  let res_scope :=
    match scope with
    | some sc => if sc = "" then s.scope else sc
    | none => s.scope
  { s with
    resources := dinsert s.resources uri ⟨uri, name, description, mime_type, res_scope⟩
    resource_handlers := dinsert s.resource_handlers uri handler }

/-- `BaseMCPServer.register_prompt`. -/
def MCPServer.register_prompt (s : MCPServer A V) (name description : String)
    (handler : A → AuthContext → Except PyExn V) (scope : Option String) :
    MCPServer A V :=
  let p_scope :=
    match scope with
    | some sc => if sc = "" then s.scope else sc
    | none => s.scope
  { s with
    prompts := dinsert s.prompts name ⟨name, description, p_scope⟩
    prompt_handlers := dinsert s.prompt_handlers name handler }

/-- The `try/except` tail of `BaseMCPServer.call_tool` around the
handler invocation: a normal handler result becomes a single `"text"`
content item with `isError=False`; a raised exception is caught and
becomes `"Error: {str(e)}"` with `isError=True`. -/
def toolResultResponse (r : Except PyExn V) : ToolCallResponse V :=
  match r with
  | .ok v => { content := [⟨"text", .result v⟩], isError := false }
  | .error e => { content := [⟨"text", .errText ("Error: " ++ e.str)⟩], isError := true }

/-- `BaseMCPServer.call_tool` from `mcp/base.py`: raises `ValueError`
when the tool is unknown, `PermissionError` when the context lacks the
tool's scope, then invokes the handler under `try/except`
(`toolResultResponse`). The raw dict access
`self._tool_handlers[tool_name]` raises `KeyError` (another exception
class) if the two registries disagree, which cannot happen for servers
built through `register_tool`. -/
def MCPServer.call_tool (s : MCPServer A V) (tool_name : String) (arguments : A)
    (context : AuthContext) : Except PyExn (ToolCallResponse V) :=
  match dget? s.tools tool_name with
  | none => .error (.valueError ("Tool not found: " ++ tool_name))
  | some tool =>
    if !(context.has_scope tool.scope) then
      .error (.permissionError
        ("Missing required scope '" ++ tool.scope ++ "' for tool '" ++ tool_name ++ "'"))
    else
      match dget? s.tool_handlers tool_name with
      | none => .error (.other ("KeyError: " ++ tool_name))
      | some handler => .ok (toolResultResponse (handler arguments context))

/-- `BaseMCPServer.fetch_resource` from `mcp/base.py`: unknown URI
raises `ValueError`, missing scope raises `PermissionError`, and a
handler exception is logged and re-raised (`raise` in the `except`
block). -/
def MCPServer.fetch_resource (s : MCPServer A V) (uri : String)
    (context : AuthContext) : Except PyExn (ResourceResponse V) :=
  match dget? s.resources uri with
  | none => .error (.valueError ("Resource not found: " ++ uri))
  | some resource =>
    if !(context.has_scope resource.scope) then
      .error (.permissionError
        ("Missing required scope '" ++ resource.scope ++ "' for resource '" ++ uri ++ "'"))
    else
      match dget? s.resource_handlers uri with
      | none => .error (.other ("KeyError: " ++ uri))
      | some handler =>
        match handler context with
        | .ok contents => .ok { contents := [⟨uri, resource.mimeType, .result contents⟩] }
        | .error e => .error e

/-- `BaseMCPServer.get_prompt` from `mcp/base.py`: unknown name raises
`ValueError`, missing scope raises `PermissionError`, and a handler
exception is logged and re-raised. -/
def MCPServer.get_prompt (s : MCPServer A V) (name : String) (arguments : A)
    (context : AuthContext) : Except PyExn (PromptResponse V) :=
  match dget? s.prompts name with
  | none => .error (.valueError ("Prompt not found: " ++ name))
  | some p =>
    if !(context.has_scope p.scope) then
      .error (.permissionError
        ("Missing required scope '" ++ p.scope ++ "' for prompt '" ++ name ++ "'"))
    else
      match dget? s.prompt_handlers name with
      | none => .error (.other ("KeyError: " ++ name))
      | some handler =>
        match handler arguments context with
        | .ok messages => .ok { description := p.description, messages := messages }
        | .error e => .error e

/-- `BaseMCPServer.get_tools`: all registered tools, or only those whose
scope the context has. -/
def MCPServer.get_tools (s : MCPServer A V) (context : Option AuthContext) :
    List Tool :=
  match context with
  | none => dvalues s.tools
  | some c => (dvalues s.tools).filter (fun t => c.has_scope t.scope)

/-- `BaseMCPServer.get_resources`. -/
def MCPServer.get_resources (s : MCPServer A V) (context : Option AuthContext) :
    List Resource :=
  match context with
  | none => dvalues s.resources
  | some c => (dvalues s.resources).filter (fun r => c.has_scope r.scope)

/-- `BaseMCPServer.get_prompts`. -/
def MCPServer.get_prompts (s : MCPServer A V) (context : Option AuthContext) :
    List Prompt :=
  match context with
  | none => dvalues s.prompts
  | some c => (dvalues s.prompts).filter (fun p => c.has_scope p.scope)

/-- `BaseMCPServer.tool_count`: `len(self._tools)`. -/
def MCPServer.tool_count (s : MCPServer A V) : Nat := s.tools.length

/-- `MCPHost` state from `mcp/host.py`: servers keyed by server name,
plus the scope-prefix → server-name routing table. -/
structure MCPHost (A V : Type) : Type where
  name : String := "mycastle-mcp-host"
  version : String := "3.0.0"
  servers : List (String × MCPServer A V) := []
  scope_to_server : List (String × String) := []

/-- `MCPHost.register_server` from `mcp/host.py`: computes the server's
scope prefix, raises `ValueError` when that prefix is already routed —
returning the state unchanged, since the `raise` precedes both
assignments — and otherwise records the server under its name and the
prefix under the server's name. The pair's second component is the
raised exception, if any. -/
def MCPHost.register_server (h : MCPHost A V) (server : MCPServer A V) :
    MCPHost A V × Option PyExn :=
  let pfx := pySplitHead ':' server.scope
  match dget? h.scope_to_server pfx with
  | some owner =>
    (h, some (.valueError
      ("Scope '" ++ pfx ++ "' already registered by server '" ++ owner ++ "'")))
  | none =>
    ({ h with
        servers := dinsert h.servers server.name server
        scope_to_server := dinsert h.scope_to_server pfx server.name }, none)

/-- `MCPHost._extract_scope_prefix` from `mcp/host.py`: raises
`ValueError` when the name contains no `':'`, else returns
`tool_name.split(":")[0]`. -/
def MCPHost.scopePrefixOf (tool_name : String) : Except PyExn String :=
  if !(tool_name.toList.contains ':') then
    .error (.valueError ("Invalid tool name format: " ++ tool_name))
  else .ok (pySplitHead ':' tool_name)

/-- `MCPHost._get_server_for_scope` from `mcp/host.py`: raises
`ValueError` when no server is routed for the prefix; the subsequent raw
dict access `self._servers[server_name]` raises `KeyError` if the two
registries disagree, which cannot happen for hosts built through
`register_server`. -/
def MCPHost.serverForScope (h : MCPHost A V) (pfx : String) :
    Except PyExn (MCPServer A V) :=
  match dget? h.scope_to_server pfx with
  | none => .error (.valueError ("No server registered for scope: " ++ pfx))
  | some server_name =>
    match dget? h.servers server_name with
    | none => .error (.other ("KeyError: " ++ server_name))
    | some server => .ok server

/-- `MCPHost.call_tool` from `mcp/host.py`: extracts the scope prefix,
looks up the responsible server, and delegates. -/
def MCPHost.call_tool (h : MCPHost A V) (tool_name : String) (arguments : A)
    (context : AuthContext) : Except PyExn (ToolCallResponse V) :=
  match MCPHost.scopePrefixOf tool_name with
  | .error e => .error e
  | .ok pfx =>
    match h.serverForScope pfx with
    | .error e => .error e
    | .ok server => server.call_tool tool_name arguments context

/-- `MCPHost.fetch_resource` from `mcp/host.py`: validates the
`mycastle://` scheme (else `ValueError`), takes the first `/`-segment of
the URI with every occurrence of `mycastle://` removed as the scope
prefix, looks up the server and delegates. -/
def MCPHost.fetch_resource (h : MCPHost A V) (uri : String)
    (context : AuthContext) : Except PyExn (ResourceResponse V) :=
  if !(uri.startsWith "mycastle://") then
    .error (.valueError ("Invalid resource URI: " ++ uri))
  else
    match h.serverForScope (pySplitHead '/' (uri.replace "mycastle://" "")) with
    | .error e => .error e
    | .ok server => server.fetch_resource uri context

/-- `MCPHost.get_prompt` from `mcp/host.py`: extracts the scope prefix,
looks up the responsible server, and delegates. -/
def MCPHost.get_prompt (h : MCPHost A V) (name : String) (arguments : A)
    (context : AuthContext) : Except PyExn (PromptResponse V) :=
  match MCPHost.scopePrefixOf name with
  | .error e => .error e
  | .ok pfx =>
    match h.serverForScope pfx with
    | .error e => .error e
    | .ok server => server.get_prompt name arguments context

/-- `MCPHost.get_capabilities` from `mcp/host.py`: concatenates each
registered server's (optionally scope-filtered) tools, resources and
prompts, in registration order. -/
def MCPHost.get_capabilities (h : MCPHost A V) (context : Option AuthContext) :
    CapabilitiesResponse :=
  { tools := (dvalues h.servers).flatMap (fun s => s.get_tools context)
    resources := (dvalues h.servers).flatMap (fun s => s.get_resources context)
    prompts := (dvalues h.servers).flatMap (fun s => s.get_prompts context)
    serverInfoName := h.name
    serverInfoVersion := h.version
    serverInfoServers := (dvalues h.servers).map
      (fun s => s.name ++ " (" ++ s.scope ++ ")") }

/-- `MCPHost.server_count`: `len(self._servers)`. -/
def MCPHost.server_count (h : MCPHost A V) : Nat := h.servers.length

/-- `MCPHost.total_tool_count`:
`sum(server.tool_count for server in self._servers.values())`. -/
def MCPHost.total_tool_count (h : MCPHost A V) : Nat :=
  ((dvalues h.servers).map (fun s => s.tool_count)).sum

/-- Result of a FastAPI endpoint: a JSON response, or an `HTTPException`
carrying a status code and a detail string. -/
inductive ApiResult (R : Type) : Type
  | ok (r : R)
  | httpError (status : Nat) (detail : String)
deriving DecidableEq

/-- The `POST /tools/{tool_name}` endpoint from `api/mcp.py`: runs
`mcp_host.call_tool` and maps `ValueError` to 404, `PermissionError` to
403, and any other exception to 500. -/
def api_call_tool (h : MCPHost A V) (tool_name : String) (arguments : A)
    (context : AuthContext) : ApiResult (ToolCallResponse V) :=
  match h.call_tool tool_name arguments context with
  | .ok r => .ok r
  | .error (.valueError m) => .httpError 404 m
  | .error (.permissionError m) => .httpError 403 m
  | .error (.other m) => .httpError 500 ("Tool execution failed: " ++ m)

/-- The `GET /resources` endpoint from `api/mcp.py`: runs
`mcp_host.fetch_resource` and maps `ValueError` to 404,
`PermissionError` to 403, and any other exception to 500. -/
def api_get_resource (h : MCPHost A V) (uri : String)
    (context : AuthContext) : ApiResult (ResourceResponse V) :=
  match h.fetch_resource uri context with
  | .ok r => .ok r
  | .error (.valueError m) => .httpError 404 m
  | .error (.permissionError m) => .httpError 403 m
  | .error (.other m) => .httpError 500 ("Resource fetch failed: " ++ m)

/-- The `POST /prompts/{prompt_name}` endpoint from `api/mcp.py`: runs
`mcp_host.get_prompt` and maps `ValueError` to 404, `PermissionError` to
403, and any other exception to 500. -/
def api_get_prompt (h : MCPHost A V) (prompt_name : String) (arguments : A)
    (context : AuthContext) : ApiResult (PromptResponse V) :=
  match h.get_prompt prompt_name arguments context with
  | .ok r => .ok r
  | .error (.valueError m) => .httpError 404 m
  | .error (.permissionError m) => .httpError 403 m
  | .error (.other m) => .httpError 500 ("Prompt generation failed: " ++ m)

/-- A spreadsheet cell value as produced by the workbook reader in
`xlsx_utils.py`: a Python `str`, `int`, `float`, `bool` or `datetime`.
The `float` payload is an integer stand-in recording only what the
embedded code inspects about a float (its zero-ness, for Python
falsiness); the `date` payload is an opaque timestamp. -/
inductive CellValue : Type
  | str (s : String)
  | int (n : Int)
  | float (n : Int)
  | bool (b : Bool)
  | date (t : Nat)
deriving DecidableEq

/-- Python falsiness (`not v`) of a cell value: `""`, `0`, `0.0` and
`False` are falsy; every datetime is truthy. -/
def pyFalsy : CellValue → Bool
  | .str s => s = ""
  | .int n => n = 0
  | .float n => n = 0
  | .bool b => b = false
  | .date _ => false

/-- Python `isinstance(v, (int, float))`: true for `int`, `float`, and
`bool` — `bool` is a subclass of `int`. -/
def isNumberInst : CellValue → Bool
  | .int _ => true
  | .float _ => true
  | .bool _ => true
  | _ => false

/-- Python `isinstance(v, datetime)`. -/
def isDatetimeInst : CellValue → Bool
  | .date _ => true
  | _ => false

/-- Python `isinstance(v, bool)`. -/
def isBoolInst : CellValue → Bool
  | .bool _ => true
  | _ => false

/-- Python `v != ""` on a cell value: only the string `""` equals `""`;
every non-string value compares unequal. -/
def pyNeqEmptyStr (v : CellValue) : Bool := v ≠ CellValue.str ""

/-- A `'-'` or `'/'` separator, the sep class of the date regexes. -/
def isDateSep (c : Char) : Bool := c = '-' || c = '/'

/-- The maximal leading run of decimal digits: its length and the rest. -/
def digitRun : List Char → Nat × List Char
  | [] => (0, [])
  | c :: cs =>
    if c.isDigit then
      let (n, r) := digitRun cs
      (n + 1, r)
    else (0, c :: cs)

/-- The first date regex of `_looks_like_date` under `re.match`: four
digits, a separator, two digits, a separator, two digits, then anything
(prefix match; fixed digit counts leave no backtracking). -/
def matchDate4_2_2 : List Char → Bool
  | a :: b :: c :: d :: s1 :: e :: f :: s2 :: g :: h :: _ =>
    a.isDigit && b.isDigit && c.isDigit && d.isDigit && isDateSep s1 &&
      e.isDigit && f.isDigit && isDateSep s2 && g.isDigit && h.isDigit
  | _ => false

/-- The second date regex of `_looks_like_date` under `re.match`: two
digits, a separator, two digits, a separator, four digits. -/
def matchDate2_2_4 : List Char → Bool
  | a :: b :: s1 :: c :: d :: s2 :: e :: f :: g :: h :: _ =>
    a.isDigit && b.isDigit && isDateSep s1 && c.isDigit && d.isDigit &&
      isDateSep s2 && e.isDigit && f.isDigit && g.isDigit && h.isDigit
  | _ => false

/-- The third, flexible date regex of `_looks_like_date` under
`re.match`: one or two digits, a separator, one or two digits, a
separator, two to four digits. A greedy one-or-two-digit group followed
by the separator matches exactly when the maximal digit run has length 1
or 2, and the trailing unanchored two-to-four-digit group needs only a
run of at least 2. -/
def matchDateFlex (l : List Char) : Bool :=
  let (k1, r1) := digitRun l
  if k1 = 0 || 2 < k1 then false
  else
    match r1 with
    | [] => false
    | c :: r2 =>
      if !(isDateSep c) then false
      else
        let (k2, r3) := digitRun r2
        if k2 = 0 || 2 < k2 then false
        else
          match r3 with
          | [] => false
          | c2 :: r4 =>
            if !(isDateSep c2) then false
            else 2 ≤ (digitRun r4).1

/-- Python `str.strip()`: drop leading and trailing whitespace. -/
def pyStrip (l : List Char) : List Char :=
  ((l.dropWhile Char.isWhitespace).reverse.dropWhile Char.isWhitespace).reverse

/-- `_looks_like_date` from `xlsx_utils.py`: `re.match` of one of the
three date patterns against the stripped string. -/
def looks_like_date (value : String) : Bool :=
  let l := pyStrip value.toList
  matchDate4_2_2 l || matchDate2_2_4 l || matchDateFlex l

/-- The per-column sampling loop of `_detect_column_types`: over the
first 20 rows, keep the cell at `col_idx` when the row is long enough
and the cell is `!= ""`, stopping after 10 samples. -/
def sampleColumn (rows : List (List CellValue)) (col_idx : Nat) : List CellValue :=
  (((rows.take 20).filterMap (fun row =>
    match row.get? col_idx with
    | some v => if pyNeqEmptyStr v then some v else none
    | none => none)).take 10)

/-- The `elif` chain of `_detect_column_types` on one column's samples:
all numbers (`int`/`float`, hence also `bool`) → `"number"`, all
datetimes → `"date"`, all date-looking strings → `"date"`, all booleans
→ `"boolean"`, else `"text"`; an empty sample is `"text"`. -/
def detectOne (sample : List CellValue) : String :=
  if sample.isEmpty then "text"
  else if sample.all isNumberInst then "number"
  else if sample.all isDatetimeInst then "date"
  else if sample.all (fun v =>
      match v with
      | .str s => looks_like_date s
      | _ => false) then "date"
  else if sample.all isBoolInst then "boolean"
  else "text"

/-- `_detect_column_types` from `xlsx_utils.py`: for each truthy header,
sample the column and record the detected type under the header value
(Python dict keyed by the header cell). -/
def detect_column_types (headers : List CellValue) (rows : List (List CellValue)) :
    List (CellValue × String) :=
  (headers.enum).foldl
    (fun acc p =>
      if pyFalsy p.2 then acc
      else dinsert acc p.2 (detectOne (sampleColumn rows p.1)))
    []

/-- The body of the header-cleanup `while` loop of `extract_sheet_data`,
acting on the reversed header list so that the loop's `headers.pop()` of
the last element is structural: while the first element of the reversed
list is falsy, drop it and truncate every row to the remaining length. -/
def cleanHeadersAux : List CellValue → List (List CellValue) →
    List CellValue × List (List CellValue)
  | [], rows => ([], rows)
  | h :: t, rows =>
    if pyFalsy h then cleanHeadersAux t (rows.map (fun row => row.take t.length))
    else (h :: t, rows)

/-- The header-cleanup `while` loop of `extract_sheet_data`: while the
header list is non-empty and its last element is falsy, pop it and
truncate every row to the new header length. -/
def cleanHeaders (headers : List CellValue) (rows : List (List CellValue)) :
    List CellValue × List (List CellValue) :=
  let pr := cleanHeadersAux headers.reverse rows
  (pr.1.reverse, pr.2)

/-- The successful payload of `extract_sheet_data`. -/
structure SheetData : Type where
  sheet_name : String
  columns : List CellValue
  column_types : List (CellValue × String)
  row_count : Nat
  rows : List (List CellValue)
  total_rows : Nat
  has_more : Bool
deriving DecidableEq

/-- `extract_sheet_data` from `xlsx_utils.py`, with the workbook
modelled as a dict from sheet name to the sheet's rows as
`iter_rows(values_only=True)` yields them (a `none` cell is an empty
cell, converted to `""`). Reads at most `max_rows` rows, raises
`XLSXParseError` (modelled as the error message) for a missing sheet or
empty data, cleans trailing falsy headers, detects column types, and
answers with the first 100 data rows plus counts; the outer
`try/except` re-wraps every message. -/
def extract_sheet_data (workbook : List (String × List (List (Option CellValue))))
    (sheet_name : String) (max_rows : Nat) : Except String SheetData :=
  let inner : Except String SheetData :=
    match dget? workbook sheet_name with
    | none => .error ("Sheet '" ++ sheet_name ++ "' not found in workbook")
    | some sheet =>
      let data := (sheet.take max_rows).map
        (fun row => row.map (fun cell => cell.getD (.str "")))
      if data.isEmpty then .error ("Sheet '" ++ sheet_name ++ "' is empty")
      else
        let hr := cleanHeaders (data.headD []) data.tail
        .ok
          { sheet_name := sheet_name
            columns := hr.1
            column_types := detect_column_types hr.1 hr.2
            row_count := hr.2.length
            rows := hr.2.take 100
            total_rows := hr.2.length
            has_more := decide (100 < hr.2.length) }
  match inner with
  | .ok d => .ok d
  | .error m => .error ("Failed to extract sheet data: " ++ m)

/-- `extract_sheet_data` at its default `max_rows=1000`. -/
def extract_sheet_data_default (workbook : List (String × List (List (Option CellValue))))
    (sheet_name : String) : Except String SheetData :=
  extract_sheet_data workbook sheet_name 1000

/-! Concrete fixtures used by the witness and counterexample theorems
below. -/

/-- A caller holding the `finance:*` wildcard scope. -/
def wCtx : AuthContext :=
  { user_id := "u1", tenant_id := "t1", role := .admin, scopes := ["finance:*"] }

/-- A caller holding no scopes at all. -/
def wCtxNo : AuthContext :=
  { user_id := "u0", tenant_id := "t1", role := .guest, scopes := [] }

/-- A caller holding the `ops:*` wildcard scope. -/
def opsCtx : AuthContext :=
  { user_id := "u2", tenant_id := "t1", role := .admin, scopes := ["ops:*"] }

/-- A tool handler that returns its argument plus one. -/
def wHandler : Nat → AuthContext → Except PyExn Nat :=
  fun a _ => .ok (a + 1)

/-- A finance server with one well-behaved tool. -/
def wServer : MCPServer Nat Nat :=
  { name := "finance-server", version := "1.0.0", scope := "finance:*",
    tools := [("finance:pay", ⟨"finance:pay", "pay an invoice", "finance:*"⟩)],
    tool_handlers := [("finance:pay", wHandler)] }

/-- A finance server whose only tool's handler always raises a generic
exception. -/
def boomServer : MCPServer Nat Nat :=
  { name := "finance-server", version := "1.0.0", scope := "finance:*",
    tools := [("finance:boom", ⟨"finance:boom", "always raises", "finance:*"⟩)],
    tool_handlers := [("finance:boom", fun _ _ => .error (.other "boom"))] }

/-- A host with `boomServer` registered, built through
`register_server`. -/
def cHost : MCPHost Nat Nat := (MCPHost.register_server {} boomServer).1

/-- An academic server with no tools. -/
def acadServer : MCPServer Nat Nat :=
  { name := "academic-server", version := "1.0.0", scope := "academic:*" }

/-- An ops server whose resource and prompt handlers always raise
generic exceptions. -/
def rpServer : MCPServer Nat Nat :=
  { name := "ops-server", version := "1.0.0", scope := "ops:*",
    resources := [("mycastle://ops/logs",
      ⟨"mycastle://ops/logs", "logs", "ops logs", "application/json", "ops:*"⟩)],
    resource_handlers := [("mycastle://ops/logs", fun _ => .error (.other "rboom"))],
    prompts := [("ops:report", ⟨"ops:report", "report prompt", "ops:*"⟩)],
    prompt_handlers := [("ops:report", fun _ _ => .error (.other "pboom"))] }

/-- A workbook with one sheet: a header row and two numeric data rows. -/
def wbW : List (String × List (List (Option CellValue))) :=
  [("s", [[some (.str "h")], [some (.int 1)], [some (.int 2)]])]

/-- A workbook whose only sheet has no rows at all. -/
def wbE : List (String × List (List (Option CellValue))) :=
  [("e", [])]

/-- The extraction result for sheet `"s"` of `wbW`. -/
def dW : SheetData :=
  { sheet_name := "s", columns := [.str "h"],
    column_types := [(.str "h", "number")],
    row_count := 2, rows := [[.int 1], [.int 2]],
    total_rows := 2, has_more := false }
lemma pySplitChar_ne_nil (sep : Char) (l : List Char) :
    pySplitChar sep l ≠ [] := by
  cases l with
  | nil => simp [pySplitChar]
  | cons c cs =>
    simp only [pySplitChar]
    split
    · simp
    · cases h : pySplitChar sep cs <;> simp

lemma pySplitChar_headD (sep : Char) (l : List Char) :
    (pySplitChar sep l).headD [] = l.takeWhile (fun c => c ≠ sep) := by
  induction l with
  | nil => simp [pySplitChar]
  | cons c cs ih =>
    simp only [pySplitChar, List.takeWhile]
    by_cases hc : c = sep
    · simp [hc]
    · simp only [if_neg hc]
      cases h : pySplitChar sep cs with
      | nil => exact absurd h (pySplitChar_ne_nil sep cs)
      | cons p ps =>
        rw [h] at ih
        simp only [List.headD] at ih
        subst ih
        simp [hc]

lemma pySplitHead_eq_takeWhile (sep : Char) (s : String) :
    pySplitHead sep s = String.mk (s.toList.takeWhile (fun c => c ≠ sep)) := by
  unfold pySplitHead
  rw [pySplitChar_headD]

/-- Claim C1: `AuthContext.has_scope c s` returns `true` exactly when `s`
itself is in `c.scopes`, or the part of `s` before its first `':'`
followed by `":*"` is in `c.scopes`; the iff's ← direction rules out any
other form of prefix or substring matching. -/
theorem has_scope_iff_exact_or_wildcard (c : AuthContext) (s : String) :
    c.has_scope s = true ↔
      s ∈ c.scopes ∨
        (String.mk (s.toList.takeWhile (fun ch => ch ≠ ':')) ++ ":*") ∈ c.scopes := by
  simp [AuthContext.has_scope, pySplitHead_eq_takeWhile, List.contains, List.elem_iff]

/-- Claim C2: `BaseMCPServer.call_tool` enforces authorization before
execution on every registered tool: without the tool's required scope it
raises `PermissionError` whatever the handler registry holds (so the
handler is never consulted); with the scope, the registered handler is
invoked on the given arguments and context and its outcome wrapped. -/
theorem call_tool_enforces_scope (s : MCPServer A V) (tool_name : String)
    (tool : Tool) (arguments : A) (context : AuthContext)
    (hreg : dget? s.tools tool_name = some tool) :
    (context.has_scope tool.scope = false →
      ∀ H, MCPServer.call_tool { s with tool_handlers := H } tool_name arguments context =
        .error (.permissionError
          ("Missing required scope '" ++ tool.scope ++ "' for tool '" ++
            tool_name ++ "'"))) ∧
    (context.has_scope tool.scope = true →
      ∀ handler, dget? s.tool_handlers tool_name = some handler →
        MCPServer.call_tool s tool_name arguments context =
          .ok (toolResultResponse (handler arguments context))) := by
  constructor
  · intro hs H
    simp [MCPServer.call_tool, hreg, hs]
  · intro hs handler hh
    simp [MCPServer.call_tool, hreg, hs, hh]

/-- Witness for C2 at a concrete server: the scopeless caller is denied,
the scoped caller gets the handler's wrapped result. -/
theorem call_tool_enforces_scope_witness :
    MCPServer.call_tool wServer "finance:pay" 3 wCtxNo =
      .error (.permissionError
        "Missing required scope 'finance:*' for tool 'finance:pay'") ∧
    MCPServer.call_tool wServer "finance:pay" 3 wCtx =
      .ok (toolResultResponse (wHandler 3 wCtx)) := by
  constructor
  · exact (call_tool_enforces_scope wServer "finance:pay"
      ⟨"finance:pay", "pay an invoice", "finance:*"⟩ 3 wCtxNo rfl).1 rfl
      wServer.tool_handlers
  · exact (call_tool_enforces_scope wServer "finance:pay"
      ⟨"finance:pay", "pay an invoice", "finance:*"⟩ 3 wCtx rfl).2 rfl wHandler rfl

/-- Claim C7: once the scope check passes, a tool handler's exception is
caught and turned into a normal `ToolCallResponse` with `isError = true`
and the message embedded in the content — the exception never
propagates — whereas resource and prompt handlers' exceptions are
re-raised unchanged. -/
theorem handler_exception_policy (s : MCPServer A V) (arguments : A)
    (context : AuthContext) (e : PyExn) :
    (∀ (tool_name : String) (tool : Tool) handler,
      dget? s.tools tool_name = some tool →
      context.has_scope tool.scope = true →
      dget? s.tool_handlers tool_name = some handler →
      handler arguments context = .error e →
      MCPServer.call_tool s tool_name arguments context =
        .ok { content := [⟨"text", .errText ("Error: " ++ e.str)⟩],
              isError := true }) ∧
    (∀ (uri : String) (resource : Resource) handler,
      dget? s.resources uri = some resource →
      context.has_scope resource.scope = true →
      dget? s.resource_handlers uri = some handler →
      handler context = .error e →
      MCPServer.fetch_resource s uri context = .error e) ∧
    (∀ (name : String) (p : Prompt) handler,
      dget? s.prompts name = some p →
      context.has_scope p.scope = true →
      dget? s.prompt_handlers name = some handler →
      handler arguments context = .error e →
      MCPServer.get_prompt s name arguments context = .error e) := by
  refine ⟨?_, ?_, ?_⟩ <;> intro n x handler hx hscope hh he <;>
    simp [MCPServer.call_tool, MCPServer.fetch_resource, MCPServer.get_prompt,
      hx, hscope, hh, he, toolResultResponse]

/-- Witness for C7 at concrete servers with raising handlers. -/
theorem handler_exception_policy_witness :
    MCPServer.call_tool boomServer "finance:boom" 0 wCtx =
      .ok { content := [⟨"text", .errText "Error: boom"⟩], isError := true } ∧
    MCPServer.fetch_resource rpServer "mycastle://ops/logs" opsCtx =
      .error (.other "rboom") ∧
    MCPServer.get_prompt rpServer "ops:report" 0 opsCtx =
      .error (.other "pboom") := by
  refine ⟨?_, ?_, ?_⟩
  · exact (handler_exception_policy boomServer 0 wCtx (.other "boom")).1
      "finance:boom" ⟨"finance:boom", "always raises", "finance:*"⟩ _ rfl rfl rfl rfl
  · exact (handler_exception_policy rpServer 0 opsCtx (.other "rboom")).2.1
      "mycastle://ops/logs"
      ⟨"mycastle://ops/logs", "logs", "ops logs", "application/json", "ops:*"⟩ _
      rfl rfl rfl rfl
  · exact (handler_exception_policy rpServer 0 opsCtx (.other "pboom")).2.2
      "ops:report" ⟨"ops:report", "report prompt", "ops:*"⟩ _ rfl rfl rfl rfl

/-- Claim C4: host routing is a pure dictionary lookup on the substring
before the first `':'`: for both `call_tool` and `get_prompt`, a name
without `':'` raises `ValueError`, an unrouted prefix raises
`ValueError`, and otherwise the call is delegated to the unique server
routed for the prefix. -/
theorem host_routing_by_colon_lookup (h : MCPHost A V) (n : String) (a : A)
    (c : AuthContext) :
    (n.toList.contains ':' = false →
      h.call_tool n a c = .error (.valueError ("Invalid tool name format: " ++ n)) ∧
      h.get_prompt n a c = .error (.valueError ("Invalid tool name format: " ++ n))) ∧
    (n.toList.contains ':' = true →
      (dget? h.scope_to_server (pySplitHead ':' n) = none →
        h.call_tool n a c =
          .error (.valueError ("No server registered for scope: " ++ pySplitHead ':' n)) ∧
        h.get_prompt n a c =
          .error (.valueError ("No server registered for scope: " ++ pySplitHead ':' n))) ∧
      (∀ sname server,
        dget? h.scope_to_server (pySplitHead ':' n) = some sname →
        dget? h.servers sname = some server →
        h.call_tool n a c = server.call_tool n a c ∧
        h.get_prompt n a c = server.get_prompt n a c)) := by
  refine ⟨?_, fun hcolon => ⟨?_, ?_⟩⟩
  · intro hc
    have hc' : ¬(':' ∈ n.data) := by simpa using hc
    constructor <;>
      simp [MCPHost.call_tool, MCPHost.get_prompt, MCPHost.scopePrefixOf, hc']
  · intro hmiss
    have hcolon' : ':' ∈ n.data := by simpa using hcolon
    constructor <;>
      simp [MCPHost.call_tool, MCPHost.get_prompt, MCPHost.scopePrefixOf,
        MCPHost.serverForScope, hcolon', hmiss]
  · intro sname server hroute hsrv
    have hcolon' : ':' ∈ n.data := by simpa using hcolon
    constructor <;>
      simp [MCPHost.call_tool, MCPHost.get_prompt, MCPHost.scopePrefixOf,
        MCPHost.serverForScope, hcolon', hroute, hsrv]

/-- Witness for C4 at a concrete host: a colonless name 404s, an
unrouted prefix 404s, a routed name reaches the registered server. -/
theorem host_routing_by_colon_lookup_witness :
    MCPHost.call_tool cHost "noColon" 0 wCtx =
      .error (.valueError "Invalid tool name format: noColon") ∧
    MCPHost.call_tool cHost "student:x" 0 wCtx =
      .error (.valueError "No server registered for scope: student") ∧
    MCPHost.call_tool cHost "finance:boom" 0 wCtx =
      MCPServer.call_tool boomServer "finance:boom" 0 wCtx := by
  refine ⟨?_, ?_, ?_⟩
  · exact ((host_routing_by_colon_lookup cHost "noColon" 0 wCtx).1 rfl).1
  · exact ((((host_routing_by_colon_lookup cHost "student:x" 0 wCtx).2 rfl).1) rfl).1
  · exact (((host_routing_by_colon_lookup cHost "finance:boom" 0 wCtx).2 rfl).2
      "finance-server" boomServer rfl rfl).1

lemma dget?_eq_none_iff {K B : Type} [DecidableEq K] (d : List (K × B)) (k : K) :
    dget? d k = none ↔ k ∉ dkeys d := by
  induction d with
  | nil => simp [dget?, dkeys]
  | cons p rest ih =>
    obtain ⟨k', v⟩ := p
    simp only [dget?, dkeys, List.map_cons, List.mem_cons]
    by_cases hk : k' = k
    · subst hk
      simp
    · rw [if_neg hk, ih]
      push_neg
      constructor
      · intro hnk
        exact ⟨fun he => hk he.symm, hnk⟩
      · intro hp
        exact hp.2

lemma dkeys_dinsert_of_fresh {K B : Type} [DecidableEq K] (d : List (K × B))
    (k : K) (v : B) (hfresh : dget? d k = none) :
    dkeys (dinsert d k v) = dkeys d ++ [k] := by
  induction d with
  | nil => simp [dinsert, dkeys]
  | cons p rest ih =>
    obtain ⟨k', v'⟩ := p
    simp only [dget?] at hfresh
    by_cases hk : k' = k
    · rw [if_pos hk] at hfresh
      cases hfresh
    · rw [if_neg hk] at hfresh
      simp only [dinsert, if_neg hk, dkeys, List.map_cons]
      have hrec := ih hfresh
      simp only [dkeys] at hrec
      rw [hrec]
      rfl

/-- Claim C6: `MCPHost.register_server` keeps each scope prefix bound to
at most one server: a duplicate prefix raises `ValueError` with both
registries returned unchanged, a fresh prefix extends both registries,
and distinctness of the routing table's keys is preserved, so after any
sequence of registrations starting from an empty host each prefix is
routed at most once. -/
theorem register_server_unique_scope (h : MCPHost A V) (server : MCPServer A V) :
    (∀ owner, dget? h.scope_to_server (pySplitHead ':' server.scope) = some owner →
      h.register_server server =
        (h, some (.valueError ("Scope '" ++ pySplitHead ':' server.scope ++
          "' already registered by server '" ++ owner ++ "'")))) ∧
    (dget? h.scope_to_server (pySplitHead ':' server.scope) = none →
      h.register_server server =
        ({ h with
            servers := dinsert h.servers server.name server
            scope_to_server := dinsert h.scope_to_server
              (pySplitHead ':' server.scope) server.name }, none)) ∧
    ((dkeys h.scope_to_server).Nodup →
      (dkeys (h.register_server server).1.scope_to_server).Nodup) := by
  refine ⟨?_, ?_, ?_⟩
  · intro owner howner
    simp [MCPHost.register_server, howner]
  · intro hfresh
    simp [MCPHost.register_server, hfresh]
  · intro hnodup
    cases hlook : dget? h.scope_to_server (pySplitHead ':' server.scope) with
    | some owner => simpa [MCPHost.register_server, hlook] using hnodup
    | none =>
      simp only [MCPHost.register_server, hlook]
      rw [dkeys_dinsert_of_fresh _ _ _ hlook]
      simp [List.nodup_append, hnodup]
      exact (dget?_eq_none_iff _ _).mp hlook

/-- Witness for C6 at a concrete host: re-registering the `finance`
prefix fails and leaves the host unchanged; a fresh `academic` prefix is
added; the routing table's keys stay distinct. -/
theorem register_server_unique_scope_witness :
    cHost.register_server boomServer =
      (cHost, some (.valueError
        "Scope 'finance' already registered by server 'finance-server'")) ∧
    cHost.register_server acadServer =
      ({ cHost with
          servers := dinsert cHost.servers "academic-server" acadServer
          scope_to_server := dinsert cHost.scope_to_server "academic"
            "academic-server" }, none) ∧
    (dkeys (cHost.register_server acadServer).1.scope_to_server).Nodup := by
  refine ⟨?_, ?_, ?_⟩
  · exact (register_server_unique_scope cHost boomServer).1 "finance-server" rfl
  · exact (register_server_unique_scope cHost acadServer).2.1 rfl
  · exact (register_server_unique_scope cHost acadServer).2.2 (by decide)

/-- Claim C5: `MCPHost.get_capabilities` with a context returns exactly
the capabilities, aggregated over all registered servers, whose scope
the caller has — none outside the caller's scopes, none within them
omitted — and with no context returns every registered capability
unfiltered; for tools, resources, and prompts alike. -/
theorem get_capabilities_filters_by_scope (h : MCPHost A V) (c : AuthContext)
    (t : Tool) (r : Resource) (p : Prompt) :
    (t ∈ (h.get_capabilities (some c)).tools ↔
      (∃ srv ∈ dvalues h.servers, t ∈ dvalues srv.tools) ∧
        c.has_scope t.scope = true) ∧
    (t ∈ (h.get_capabilities none).tools ↔
      ∃ srv ∈ dvalues h.servers, t ∈ dvalues srv.tools) ∧
    (r ∈ (h.get_capabilities (some c)).resources ↔
      (∃ srv ∈ dvalues h.servers, r ∈ dvalues srv.resources) ∧
        c.has_scope r.scope = true) ∧
    (r ∈ (h.get_capabilities none).resources ↔
      ∃ srv ∈ dvalues h.servers, r ∈ dvalues srv.resources) ∧
    (p ∈ (h.get_capabilities (some c)).prompts ↔
      (∃ srv ∈ dvalues h.servers, p ∈ dvalues srv.prompts) ∧
        c.has_scope p.scope = true) ∧
    (p ∈ (h.get_capabilities none).prompts ↔
      ∃ srv ∈ dvalues h.servers, p ∈ dvalues srv.prompts) := by
  refine ⟨?_, ?_, ?_, ?_, ?_, ?_⟩ <;>
    simp [MCPHost.get_capabilities, MCPServer.get_tools, MCPServer.get_resources,
      MCPServer.get_prompts, List.mem_flatMap, List.mem_filter] <;>
    aesop

/-- Claim C8: `MCPHost.total_tool_count` is the sum over registered
servers of `tool_count` (the size of each server's tool registry) and
`MCPHost.server_count` is the number of registered servers. -/
theorem host_counts (h : MCPHost A V) :
    h.total_tool_count = ((dvalues h.servers).map (fun s => s.tools.length)).sum ∧
    h.server_count = (dkeys h.servers).length := by
  constructor
  · simp [MCPHost.total_tool_count, MCPServer.tool_count]
  · simp [MCPHost.server_count, dkeys]

/-- Counterexample to C3 as stated: at the `POST /tools` endpoint, with
a registered tool whose handler raises a generic exception and a caller
holding the scope, the endpoint does NOT answer HTTP 500 — the server
catches the handler's exception and the endpoint returns a normal (200)
response whose body has `isError = true`. -/
theorem api_tool_handler_exception_not_500 :
    api_call_tool cHost "finance:boom" 0 wCtx =
      .ok { content := [⟨"text", .errText "Error: boom"⟩], isError := true } := by
  rfl

/-- Claim C3 (amended): at the tool, resource, and prompt endpoints a
`ValueError` reaching the endpoint yields 404, a `PermissionError`
yields 403 and any other exception reaching the endpoint yields 500 —
but an exception raised inside a tool's handler body never reaches the
endpoint: the server catches it and the endpoint returns a normal
response with `isError = true`. Resource and prompt handlers re-raise,
so their exceptions are mapped by the same 404/403/500 rule (the
generic-class case is stated here for a resource handler). -/
theorem api_exception_to_status_mapping (h : MCPHost A V) (n uri : String)
    (a : A) (c : AuthContext) :
    (∀ m, h.call_tool n a c = .error (.valueError m) →
      api_call_tool h n a c = .httpError 404 m) ∧
    (∀ m, h.call_tool n a c = .error (.permissionError m) →
      api_call_tool h n a c = .httpError 403 m) ∧
    (∀ m, h.call_tool n a c = .error (.other m) →
      api_call_tool h n a c = .httpError 500 ("Tool execution failed: " ++ m)) ∧
    (∀ m, h.fetch_resource uri c = .error (.valueError m) →
      api_get_resource h uri c = .httpError 404 m) ∧
    (∀ m, h.fetch_resource uri c = .error (.permissionError m) →
      api_get_resource h uri c = .httpError 403 m) ∧
    (∀ m, h.fetch_resource uri c = .error (.other m) →
      api_get_resource h uri c = .httpError 500 ("Resource fetch failed: " ++ m)) ∧
    (∀ m, h.get_prompt n a c = .error (.valueError m) →
      api_get_prompt h n a c = .httpError 404 m) ∧
    (∀ m, h.get_prompt n a c = .error (.permissionError m) →
      api_get_prompt h n a c = .httpError 403 m) ∧
    (∀ m, h.get_prompt n a c = .error (.other m) →
      api_get_prompt h n a c = .httpError 500 ("Prompt generation failed: " ++ m)) ∧
    (∀ sname server tool handler e,
      MCPHost.scopePrefixOf n = .ok (pySplitHead ':' n) →
      dget? h.scope_to_server (pySplitHead ':' n) = some sname →
      dget? h.servers sname = some server →
      dget? server.tools n = some tool →
      c.has_scope tool.scope = true →
      dget? server.tool_handlers n = some handler →
      handler a c = .error e →
      api_call_tool h n a c =
        .ok { content := [⟨"text", .errText ("Error: " ++ e.str)⟩],
              isError := true }) ∧
    (∀ sname server resource handler m,
      uri.startsWith "mycastle://" = true →
      dget? h.scope_to_server (pySplitHead '/' (uri.replace "mycastle://" "")) =
        some sname →
      dget? h.servers sname = some server →
      dget? server.resources uri = some resource →
      c.has_scope resource.scope = true →
      dget? server.resource_handlers uri = some handler →
      handler c = .error (.other m) →
      api_get_resource h uri c =
        .httpError 500 ("Resource fetch failed: " ++ m)) := by
  refine ⟨?_, ?_, ?_, ?_, ?_, ?_, ?_, ?_, ?_, ?_, ?_⟩
  · intro m hm
    unfold api_call_tool
    rw [hm]
  · intro m hm
    unfold api_call_tool
    rw [hm]
  · intro m hm
    unfold api_call_tool
    rw [hm]
  · intro m hm
    unfold api_get_resource
    rw [hm]
  · intro m hm
    unfold api_get_resource
    rw [hm]
  · intro m hm
    unfold api_get_resource
    rw [hm]
  · intro m hm
    unfold api_get_prompt
    rw [hm]
  · intro m hm
    unfold api_get_prompt
    rw [hm]
  · intro m hm
    unfold api_get_prompt
    rw [hm]
  · intro sname server tool handler e hpfx hroute hsrv htool hscope hh he
    have hns : (!(c.has_scope tool.scope)) = false := by
      rw [hscope]
      rfl
    simp only [api_call_tool, MCPHost.call_tool, hpfx, MCPHost.serverForScope,
      hroute, hsrv, MCPServer.call_tool, htool, hns, Bool.false_eq_true,
      if_false, hh, he, toolResultResponse]
  · intro sname server resource handler m hscheme hroute hsrv hres hscope hh he
    generalize hg : pySplitHead '/' (uri.replace "mycastle://" "") = pfx2 at hroute
    have hsch : (!(uri.startsWith "mycastle://")) = false := by
      rw [hscheme]
      rfl
    unfold api_get_resource MCPHost.fetch_resource
    rw [hsch]
    simp only [Bool.false_eq_true, if_false]
    rw [hg]
    simp [MCPHost.serverForScope, hroute, hsrv, MCPServer.fetch_resource, hres,
      hscope, hh, he]

/-- Witness for the amended C3 at a concrete host: a colonless tool name
yields 404 and a raising tool handler yields a normal `isError`
response. -/
theorem api_exception_to_status_mapping_witness :
    api_call_tool cHost "oops" 0 wCtx =
      .httpError 404 "Invalid tool name format: oops" ∧
    api_call_tool cHost "finance:boom" 0 wCtx =
      .ok { content := [⟨"text", .errText "Error: boom"⟩], isError := true } := by
  constructor
  · exact (api_exception_to_status_mapping cHost "oops" "u" 0 wCtx).1
      "Invalid tool name format: oops" rfl
  · exact (api_exception_to_status_mapping cHost "finance:boom" "u" 0
      wCtx).2.2.2.2.2.2.2.2.2.1 "finance-server" boomServer
      ⟨"finance:boom", "always raises", "finance:*"⟩ _ (.other "boom")
      rfl rfl rfl rfl rfl rfl rfl

lemma isNumberInst_of_isBoolInst (v : CellValue) (hb : isBoolInst v = true) :
    isNumberInst v = true := by
  cases v <;> simp_all [isBoolInst, isNumberInst]

lemma detectOne_ne_boolean (sample : List CellValue) :
    detectOne sample ≠ "boolean" := by
  unfold detectOne
  split_ifs with h1 h2 h3 h4 h5
  · simp
  · simp
  · simp
  · simp
  · exfalso
    apply h2
    rw [List.all_eq_true] at h5 ⊢
    intro v hv
    exact isNumberInst_of_isBoolInst v (h5 v hv)
  · simp

lemma dget?_dinsert {K B : Type} [DecidableEq K] (d : List (K × B)) (k k' : K)
    (v : B) :
    dget? (dinsert d k v) k' = if k = k' then some v else dget? d k' := by
  induction d with
  | nil => simp [dinsert, dget?]
  | cons p rest ih =>
    obtain ⟨k0, v0⟩ := p
    by_cases hk : k0 = k <;> by_cases hk' : k0 = k' <;>
      by_cases hkk : k = k' <;>
      simp_all [dinsert, dget?]

lemma detect_fold_values_ne_boolean (l : List (Nat × CellValue))
    (rows : List (List CellValue)) (acc : List (CellValue × String))
    (hacc : ∀ k ty, dget? acc k = some ty → ty ≠ "boolean") :
    ∀ k ty,
      dget? (l.foldl (fun acc p =>
        if pyFalsy p.2 then acc
        else dinsert acc p.2 (detectOne (sampleColumn rows p.1))) acc) k =
        some ty → ty ≠ "boolean" := by
  induction l generalizing acc with
  | nil => exact hacc
  | cons p t ih =>
    intro k ty hlook
    simp only [List.foldl_cons] at hlook
    by_cases hf : pyFalsy p.2
    · rw [if_pos hf] at hlook
      exact ih acc hacc k ty hlook
    · rw [if_neg hf] at hlook
      refine ih _ ?_ k ty hlook
      intro k' ty' hl'
      rw [dget?_dinsert] at hl'
      split at hl'
      · cases hl'
        exact detectOne_ne_boolean _
      · exact hacc _ _ hl'

/-- Claim C9: since Python `bool` is a subclass of `int`, a non-empty
sample consisting entirely of booleans satisfies the all-numbers check,
so the column is typed `"number"`; and the `"boolean"` branch is
unreachable — `detect_column_types` never assigns `"boolean"` to any
column on any input. -/
theorem bool_columns_typed_number_not_boolean :
    (∀ sample : List CellValue, sample ≠ [] → sample.all isBoolInst = true →
      detectOne sample = "number") ∧
    (∀ headers rows header ty,
      dget? (detect_column_types headers rows) header = some ty →
        ty ≠ "boolean") := by
  constructor
  · intro sample hne hall
    have hnum : sample.all isNumberInst = true := by
      rw [List.all_eq_true] at hall ⊢
      intro v hv
      exact isNumberInst_of_isBoolInst v (hall v hv)
    unfold detectOne
    rw [if_neg (by simpa [List.isEmpty_iff] using hne), if_pos hnum]
  · intro headers rows header ty hlook
    exact detect_fold_values_ne_boolean (headers.enum) rows []
      (by intro k ty' h; simp [dget?] at h) header ty hlook

/-- Witness for C9: an all-boolean column is typed `"number"`, and a
concrete boolean column's recorded type is not `"boolean"`. -/
theorem bool_columns_typed_number_not_boolean_witness :
    detectOne [CellValue.bool true, CellValue.bool false] = "number" ∧
    ("number" : String) ≠ "boolean" := by
  constructor
  · exact bool_columns_typed_number_not_boolean.1
      [CellValue.bool true, CellValue.bool false] (by decide) (by decide)
  · exact bool_columns_typed_number_not_boolean.2 [CellValue.str "flags"]
      [[CellValue.bool true]] (CellValue.str "flags") "number" (by rfl)

lemma cleanHeadersAux_snd_length (rh : List CellValue)
    (rs : List (List CellValue)) :
    (cleanHeadersAux rh rs).2.length = rs.length := by
  induction rh generalizing rs with
  | nil => simp [cleanHeadersAux]
  | cons h t ih =>
    simp only [cleanHeadersAux]
    by_cases hf : pyFalsy h
    · rw [if_pos hf]
      rw [ih]
      simp
    · rw [if_neg hf]

lemma cleanHeaders_snd_length (hs : List CellValue)
    (rs : List (List CellValue)) :
    (cleanHeaders hs rs).2.length = rs.length := by
  unfold cleanHeaders
  exact cleanHeadersAux_snd_length hs.reverse rs

lemma cleanHeadersAux_fst_length_le (rh : List CellValue)
    (rs : List (List CellValue)) :
    (cleanHeadersAux rh rs).1.length ≤ rh.length := by
  induction rh generalizing rs with
  | nil => simp [cleanHeadersAux]
  | cons h t ih =>
    simp only [cleanHeadersAux]
    by_cases hf : pyFalsy h
    · rw [if_pos hf]
      exact le_trans (ih _) (Nat.le_succ _)
    · rw [if_neg hf]

lemma cleanHeadersAux_characterization (rh : List CellValue)
    (rs : List (List CellValue)) :
    cleanHeadersAux rh rs = (rh, rs) ∨
    (cleanHeadersAux rh rs).2 =
      rs.map (fun r => r.take (cleanHeadersAux rh rs).1.length) := by
  induction rh generalizing rs with
  | nil => left; rfl
  | cons h t ih =>
    by_cases hf : pyFalsy h
    · right
      simp only [cleanHeadersAux, if_pos hf]
      rcases ih (rs.map (fun r => r.take t.length)) with hL | hR
      · rw [hL]
      · rw [hR, List.map_map]
        apply List.map_congr_left
        intro r _
        have hle : (cleanHeadersAux t (rs.map (fun r => r.take t.length))).1.length ≤
            t.length := cleanHeadersAux_fst_length_le t _
        simp [List.take_take, Nat.min_eq_left hle]
    · left
      simp [cleanHeadersAux, hf]

lemma cleanHeaders_characterization (hs : List CellValue)
    (rs : List (List CellValue)) :
    cleanHeaders hs rs = (hs, rs) ∨
    (cleanHeaders hs rs).2 =
      rs.map (fun r => r.take (cleanHeaders hs rs).1.length) := by
  rcases cleanHeadersAux_characterization hs.reverse rs with hL | hR
  · left
    unfold cleanHeaders
    rw [hL]
    simp
  · right
    unfold cleanHeaders
    simp only [List.length_reverse]
    exact hR

/-- Claim C10: a successful `extract_sheet_data` reads at most
`max_rows` rows of the sheet including the header row; `row_count` and
`total_rows` both equal the full number of data rows read from the
sheet (the rows after the header, `None` cells as `""`); the `rows`
field is exactly the first 100 of those data rows, each possibly
truncated to the cleaned column count by the trailing-header cleanup;
`has_more` holds precisely when more than 100 data rows were read; an
empty sheet yields an `XLSXParseError`; the default `max_rows` is
1000. -/
theorem extract_sheet_data_spec
    (workbook : List (String × List (List (Option CellValue))))
    (sheet_name : String) (max_rows : Nat) :
    (∀ sheet d, dget? workbook sheet_name = some sheet →
      extract_sheet_data workbook sheet_name max_rows = .ok d →
      d.total_rows =
        (((sheet.take max_rows).map
          (fun row => row.map (fun cell => cell.getD (.str "")))).tail).length ∧
      d.row_count = d.total_rows ∧
      (d.rows =
          ((((sheet.take max_rows).map
            (fun row => row.map (fun cell => cell.getD (.str "")))).tail).take 100) ∨
        d.rows =
          ((((sheet.take max_rows).map
            (fun row => row.map (fun cell => cell.getD (.str "")))).tail).map
              (fun r => r.take d.columns.length)).take 100) ∧
      d.total_rows + 1 ≤ max_rows ∧
      d.rows.length = min 100 d.total_rows ∧
      (d.has_more = true ↔ 100 < d.total_rows)) ∧
    (∀ sheet, dget? workbook sheet_name = some sheet → sheet = [] →
      extract_sheet_data workbook sheet_name max_rows =
        .error ("Failed to extract sheet data: Sheet '" ++ sheet_name ++
          "' is empty")) ∧
    extract_sheet_data_default workbook sheet_name =
      extract_sheet_data workbook sheet_name 1000 := by
  refine ⟨?_, ?_, rfl⟩
  · intro sheet d hw hok
    unfold extract_sheet_data at hok
    rw [hw] at hok
    simp only [] at hok
    by_cases hemp :
        ((sheet.take max_rows).map
          (fun row => row.map (fun cell => cell.getD (.str "")))).isEmpty = true
    · rw [if_pos hemp] at hok
      simp at hok
    · rw [if_neg hemp] at hok
      simp only [Except.ok.injEq] at hok
      subst hok
      have hlen : ((sheet.take max_rows).map
          (fun row => row.map (fun cell => cell.getD (.str "")))).length ≤
          max_rows := by
        simp [List.length_take]
      have hpos : 0 < ((sheet.take max_rows).map
          (fun row => row.map (fun cell => cell.getD (.str "")))).length := by
        rw [List.length_pos]
        intro hnil
        rw [hnil] at hemp
        simp at hemp
      have htr := cleanHeaders_snd_length
        (((sheet.take max_rows).map
          (fun row => row.map (fun cell => cell.getD (.str "")))).headD [])
        (((sheet.take max_rows).map
          (fun row => row.map (fun cell => cell.getD (.str "")))).tail)
      refine ⟨htr, rfl, ?_, ?_, ?_, ?_⟩
      · rcases cleanHeaders_characterization
          (((sheet.take max_rows).map
            (fun row => row.map (fun cell => cell.getD (.str "")))).headD [])
          (((sheet.take max_rows).map
            (fun row => row.map (fun cell => cell.getD (.str "")))).tail) with hL | hR
        · left
          rw [hL]
        · right
          rw [hR]
      · simp only [htr, List.length_tail] at *
        omega
      · simp [List.length_take]
      · simp
  · intro sheet hw hnil
    subst hnil
    unfold extract_sheet_data
    rw [hw]
    simp only [List.take_nil, List.map_nil, List.isEmpty_nil, if_true]
    rw [← String.append_assoc, ← String.append_assoc]
    rfl

/-- Witness for C10 at a concrete workbook: the three-row sheet yields
two data rows, previewed in full, with consistent counts, and the empty
sheet errors. -/
theorem extract_sheet_data_spec_witness :
    (dW.total_rows = 2 ∧
      dW.row_count = dW.total_rows ∧
      (dW.rows = [[CellValue.int 1], [CellValue.int 2]] ∨
        dW.rows = [[CellValue.int 1], [CellValue.int 2]]) ∧
      dW.rows.length = min 100 dW.total_rows ∧
      (dW.has_more = true ↔ 100 < dW.total_rows)) ∧
    extract_sheet_data wbE "e" 1000 =
      .error "Failed to extract sheet data: Sheet 'e' is empty" := by
  constructor
  · have h := (extract_sheet_data_spec wbW "s" 1000).1
      [[some (.str "h")], [some (.int 1)], [some (.int 2)]] dW rfl rfl
    exact ⟨h.1, h.2.1, h.2.2.1, h.2.2.2.2.1, h.2.2.2.2.2⟩
  · exact (extract_sheet_data_spec wbE "e" 1000).2.1 [] rfl rfl
